import Mathlib

/-!
Verification of the habit-tracker state logic.

Shallow embedding of the state-management core of the habit-tracking
dashboard (`src/app/page.tsx`): the habit data model, the three mutating
operations (`handleHabitChange`, `updateHabitGoal`, `handleCheckIn`), the
two periodic checks (`checkNewDay`, `checkMissedHabits`), and the derived
aggregate-completion values (`OverallProgress`).

Numeric values (`goal`, `current`, slider values) are JavaScript numbers
holding small decimals; they are embedded as `ℚ`. Calendar dates are
embedded by their `(getFullYear, getMonth, getDate)` components as
integers. Transient notifications (`setNotification(...)` followed by a
3-second auto-clear) are modelled as an emitted `Option String` event
returned next to the updated state.
-/

namespace HabitTracker

/-- One point of the trailing-week series of a habit: day label and value. -/
structure DataPoint where
  day : String
  value : ℚ
  deriving Repr, DecidableEq

/-- A habit record (the `icon` React element carries no logic and is
omitted). -/
structure HabitData where
  id : String
  name : String
  unit : String
  color : String
  goal : ℚ
  current : ℚ
  data : List DataPoint
  deriving Repr, DecidableEq

/-- A calendar instant, by the components the code reads off a JS `Date`:
`getFullYear()`, `getMonth()` (0-11) and `getDate()` (1-31). -/
structure Date where
  year : ℤ
  month : ℤ
  day : ℤ
  deriving Repr, DecidableEq

/-- The component state of the page: `streak`, `lastCheckin`,
`todayComplete`, `habits`, `reminders`. -/
structure AppState where
  streak : ℕ
  lastCheckin : Option Date
  todayComplete : Bool
  habits : List HabitData
  reminders : List String
  deriving Repr, DecidableEq

/-! ## The goal-achievement predicate, per use site

The direction-specific achievement test is written out inline at each use
site in the source; each occurrence is embedded separately so that their
agreement is a theorem, not an artifact of sharing one definition. -/

/-- The `completedHabits` filter of `OverallProgress`:
`habits.filter(h => h.id === "screen" ? h.current <= h.goal : h.current >= h.goal)`. -/
def overallProgress_completed (h : HabitData) : Bool :=
  if h.id = "screen" then decide (h.current ≤ h.goal) else decide (h.current ≥ h.goal)

/-- The per-habit badge of `OverallProgress`: `const isComplete = habit.id === "screen" ? habit.current <= habit.goal : habit.current >= habit.goal`. -/
def overallProgress_isComplete (h : HabitData) : Bool :=
  if h.id = "screen" then decide (h.current ≤ h.goal) else decide (h.current ≥ h.goal)

/-- The per-habit status of the Today Summary panel: `const goalMet = habit.id === "screen" ? habit.current <= habit.goal : habit.current >= habit.goal`. -/
def summary_goalMet (h : HabitData) : Bool :=
  if h.id = "screen" then decide (h.current ≤ h.goal) else decide (h.current ≥ h.goal)

/-- The Overall Progress Bar in the summary panel: its `completedHabits`
filter `h.id === "screen" ? h.current <= h.goal : h.current >= h.goal`. -/
def summaryBar_completed (h : HabitData) : Bool :=
  if h.id = "screen" then decide (h.current ≤ h.goal) else decide (h.current ≥ h.goal)

/-- The on-target test of `HabitSlider`: `isReversed = habit.id === "screen"`; `isOnTarget = isReversed ? habit.current <= habit.goal : habit.current >= habit.goal`. -/
def slider_isOnTarget (h : HabitData) : Bool :=
  let isReversed := h.id = "screen"
  if isReversed then decide (h.current ≤ h.goal) else decide (h.current ≥ h.goal)

/-- The achievement predicate as the spec states it: for id `"screen"`,
achieved iff `current ≤ goal`; for every other id, achieved iff
`current ≥ goal`. -/
def achievedSpec (h : HabitData) : Prop :=
  if h.id = "screen" then h.current ≤ h.goal else h.current ≥ h.goal

instance (h : HabitData) : Decidable (achievedSpec h) := by
  unfold achievedSpec; split <;> infer_instance

/-! ## Operations

Each mutating operation returns the updated `AppState` together with the
notification it emits (`setNotification(...)`, auto-cleared after 3 s),
as an `Option String` event. -/

/-- The "goal achieved" notification text of `handleHabitChange`
(the leading characters reproduce the literal bytes of the source). -/
def achievedNotificationText (name : String) : String :=
  "üéâ Goal achieved for " ++ name ++ "!"

/-- The notification side of `handleHabitChange`: find the habit being
modified; if found, compare `goalMet` (at the new value) with
`wasAlreadyAchieved` (at the old `current`) and notify only if the goal is
newly achieved. -/
def handleHabitChangeNotification (s : AppState) (id : String) (value : ℚ) :
    Option String :=
  match s.habits.find? (fun h => h.id == id) with
  | some habitBeingModified =>
      let goalMet : Bool :=
        if habitBeingModified.id = "screen" then decide (value ≤ habitBeingModified.goal)
        else decide (value ≥ habitBeingModified.goal)
      let wasAlreadyAchieved : Bool :=
        if habitBeingModified.id = "screen"
        then decide (habitBeingModified.current ≤ habitBeingModified.goal)
        else decide (habitBeingModified.current ≥ habitBeingModified.goal)
      if goalMet && !wasAlreadyAchieved
      then some (achievedNotificationText habitBeingModified.name)
      else none
  | none => none

/-- The per-habit update of `setHabits` in `handleHabitChange`:
`{...habit, current: value, data: [...habit.data.slice(0, -1), {day: habit.data[habit.data.length - 1].day, value}]}`.
(On an empty series the source would dereference `undefined`; the embedding
totalises the day lookup with `""` — every stated theorem about the series
assumes it nonempty, as the length-7 invariant guarantees.) -/
def updateHabitData (habit : HabitData) (value : ℚ) : HabitData :=
  { habit with
    current := value
    data := habit.data.dropLast ++
      [⟨((habit.data.getLast?).map DataPoint.day).getD "", value⟩] }

/-- `handleHabitChange(id, value)`: emit the achievement notification when
applicable, and map over the habits replacing the matching one. -/
def handleHabitChange (s : AppState) (id : String) (value : ℚ) :
    AppState × Option String :=
  let notif := handleHabitChangeNotification s id value
  ({ s with
      habits := s.habits.map fun habit =>
        if habit.id == id then updateHabitData habit value else habit },
   notif)

/-- Embeds `updateHabitGoal(id, goal)`: set `goal` on the matching habit
and emit the goal-updated notification naming the habit. When the id is
unknown, the name lookup yields `undefined` and the JS template literal
renders it as the string `"undefined"`. -/
def updateHabitGoal (s : AppState) (id : String) (goal : ℚ) :
    AppState × Option String :=
  let habitName := ((s.habits.find? (fun h => h.id == id)).map HabitData.name).getD "undefined"
  ({ s with
      habits := s.habits.map fun habit =>
        if habit.id == id then { habit with goal := goal } else habit },
   some ("Goal updated for " ++ habitName))

/-- Embeds `handleCheckIn()`: guarded by `!todayComplete`; sets
`lastCheckin` to now, `todayComplete` to true, increments `streak`, and
notifies. -/
def handleCheckIn (now : Date) (s : AppState) : AppState × Option String :=
  if !s.todayComplete then
    ({ s with
        lastCheckin := some now
        todayComplete := true
        streak := s.streak + 1 },
     some "Daily check-in complete! Streak increased.")
  else (s, none)

/-- Embeds `checkNewDay()` (run every 60 s): if the calendar date components of
now and `lastCheckin` differ, clear `todayComplete`; if additionally
`now.getDate() - last.getDate() > 1` or the month or year changed, reset
`streak` to 0 and notify. -/
def checkNewDay (now : Date) (s : AppState) : AppState × Option String :=
  match s.lastCheckin with
  | none => (s, none)
  | some lastCheckedDate =>
      let isNewDay : Bool :=
        now.day != lastCheckedDate.day ||
        now.month != lastCheckedDate.month ||
        now.year != lastCheckedDate.year
      if isNewDay then
        let s1 := { s with todayComplete := false }
        let dayDifference := now.day - lastCheckedDate.day
        let isMonthChange : Bool := now.month != lastCheckedDate.month
        let isYearChange : Bool := now.year != lastCheckedDate.year
        let missedDay : Bool := decide (dayDifference > 1) || isMonthChange || isYearChange
        if missedDay then
          ({ s1 with streak := 0 }, some "You missed a day! Streak reset.")
        else (s1, none)
      else (s, none)

/-- The "missed" test of `checkMissedHabits`: over the goal for screen,
under the goal for every other habit. -/
def missedHabit (habit : HabitData) : Bool :=
  if habit.id = "screen" then decide (habit.current > habit.goal)
  else decide (habit.current < habit.goal)

/-- The reminder message of `checkMissedHabits`: the do-not-forget text,
phrased with "limit" for screen and "complete" otherwise, naming the habit
in lower case. -/
def reminderMessage (habit : HabitData) : String :=
  "Don\x27t forget to " ++ (if habit.id = "screen" then "limit" else "complete") ++
    " your " ++ habit.name.toLower ++ " goal!"

/-- Embeds `checkMissedHabits()` (run every 3600 s): recompute the reminder list
wholesale — one message per missed habit, empty when none are missed. -/
def checkMissedHabits (s : AppState) : AppState :=
  let missedHabits := s.habits.filter missedHabit
  if missedHabits.length > 0 then
    { s with reminders := missedHabits.map reminderMessage }
  else
    { s with reminders := [] }

/-! ## Derived aggregate completion (`OverallProgress`) -/

/-- The `completedHabits` count: the number of habits passing the
direction-specific achievement filter. -/
def completedCount (habits : List HabitData) : ℕ :=
  (habits.filter overallProgress_completed).length

/-- The percentage `Math.round((completedHabits / habits.length) * 100)`,
over ℚ with round-half-up (the behaviour of `Math.round`). -/
def completionPercentage (habits : List HabitData) : ℤ :=
  round (((completedCount habits : ℚ) / (habits.length : ℚ)) * 100)

/-! ## Initial state

The initial mock data of the page. The day labels of the trailing week
are computed from the wall clock at startup, so they are parameters here;
each habit pairs them with its fixed value series. -/

/-- Pairs day labels with a value series:
`pastWeekDays.map((day, index) => (\x7bday, value: values[index]\x7d))`,
for two length-7 lists. -/
def mkSeries (pastWeekDays : List String) (values : List ℚ) : List DataPoint :=
  (pastWeekDays.zip values).map fun p => ⟨p.1, p.2⟩

/-- The initial `sleep` record. -/
def sleepHabit (pastWeekDays : List String) : HabitData :=
  { id := "sleep", name := "Sleep", unit := "hours", color := "#4f46e5",
    goal := 8, current := 7,
    data := mkSeries pastWeekDays [7.5, 6.5, 8, 7, 6, 8.5, 7.5] }

/-- The initial `water` record. -/
def waterHabit (pastWeekDays : List String) : HabitData :=
  { id := "water", name := "Water", unit := "liters", color := "#0ea5e9",
    goal := 3, current := 2.5,
    data := mkSeries pastWeekDays [1.8, 2.5, 3.2, 2.7, 1.5, 2.2, 2.8] }

/-- The initial `screen` record. -/
def screenHabit (pastWeekDays : List String) : HabitData :=
  { id := "screen", name := "Screen Time", unit := "hours", color := "#ef4444",
    goal := 4, current := 4.5,
    data := mkSeries pastWeekDays [5.5, 4.2, 6.1, 3.5, 7.2, 4.8, 3.9] }

/-- The initial `exercise` record. -/
def exerciseHabit (pastWeekDays : List String) : HabitData :=
  { id := "exercise", name := "Exercise", unit := "minutes", color := "#10b981",
    goal := 30, current := 25,
    data := mkSeries pastWeekDays [45, 0, 30, 60, 20, 0, 25] }

/-- The initial `meditation` record. -/
def meditationHabit (pastWeekDays : List String) : HabitData :=
  { id := "meditation", name := "Meditation", unit := "minutes", color := "#8b5cf6",
    goal := 15, current := 10,
    data := mkSeries pastWeekDays [10, 15, 5, 20, 10, 15, 10] }

/-- The initial `coffee` record. -/
def coffeeHabit (pastWeekDays : List String) : HabitData :=
  { id := "coffee", name := "Coffee", unit := "cups", color := "#d97706",
    goal := 2, current := 3,
    data := mkSeries pastWeekDays [2, 3, 2, 4, 1, 3, 3] }

/-- The six initial habit records (display metadata and numeric data as in
the source; the `icon` element is omitted). -/
def initialHabits (pastWeekDays : List String) : List HabitData :=
  [ sleepHabit pastWeekDays, waterHabit pastWeekDays, screenHabit pastWeekDays,
    exerciseHabit pastWeekDays, meditationHabit pastWeekDays, coffeeHabit pastWeekDays ]

/-- The initial component state: `streak = 3`, `lastCheckin = new Date()`
(the startup instant, a parameter), `todayComplete = false`, empty
reminders. -/
def initialState (startup : Date) (pastWeekDays : List String) : AppState :=
  { streak := 3
    lastCheckin := some startup
    todayComplete := false
    habits := initialHabits pastWeekDays
    reminders := [] }

/-- A concrete week of labels, for concrete evaluations. -/
def sampleDays : List String :=
  ["Mon", "Tue", "Wed", "Thu", "Fri", "Sat", "Sun"]

/-- A concrete startup instant (October 11, 2026: `getMonth() = 9`). -/
def sampleNow : Date := ⟨2026, 9, 11⟩

/-- The concrete initial state at the sample instant. -/
def sampleState : AppState := initialState sampleNow sampleDays

end HabitTracker

namespace HabitTracker

/-- **C1**: for every habit, the goal-achievement predicate used by every
derivation — the `OverallProgress` completed-count filter, its per-habit
badge, the Today Summary badge, the summary progress-bar filter, and the
slider on-target test — holds exactly when the direction rule of the spec
does: `current ≤ goal` for id `"screen"`, `current ≥ goal` otherwise. -/
theorem goal_achievement_uniform (h : HabitData) :
    (overallProgress_completed h = true ↔ achievedSpec h) ∧
    (overallProgress_isComplete h = true ↔ achievedSpec h) ∧
    (summary_goalMet h = true ↔ achievedSpec h) ∧
    (summaryBar_completed h = true ↔ achievedSpec h) ∧
    (slider_isOnTarget h = true ↔ achievedSpec h) := by
  unfold overallProgress_completed overallProgress_isComplete summary_goalMet
    summaryBar_completed slider_isOnTarget achievedSpec
  refine ⟨?_, ?_, ?_, ?_, ?_⟩ <;> split <;> simp_all

/-! Shared helper lemmas. -/

/-- The `completedHabits` filter agrees with the decidable spec predicate. -/
lemma overallProgress_completed_eq (x : HabitData) :
    overallProgress_completed x = decide (achievedSpec x) := by
  unfold overallProgress_completed
  by_cases hc : x.id = "screen"
  · rw [if_pos hc]; exact decide_eq_decide.mpr (by simp [achievedSpec, hc])
  · rw [if_neg hc]; exact decide_eq_decide.mpr (by simp [achievedSpec, hc])

/-- The missed test is the boolean negation of the achievement predicate. -/
lemma missedHabit_eq (h : HabitData) : missedHabit h = !decide (achievedSpec h) := by
  unfold missedHabit
  by_cases hc : h.id = "screen"
  · rw [if_pos hc, ← decide_not]
    apply decide_eq_decide.mpr
    unfold achievedSpec
    rw [if_pos hc]
    exact lt_iff_not_le
  · rw [if_neg hc, ← decide_not]
    apply decide_eq_decide.mpr
    unfold achievedSpec
    rw [if_neg hc]
    exact lt_iff_not_le

/-- The goal-met test of `handleHabitChange` at the new value is the
achievement predicate at the updated record. -/
lemma goalMet_eq_decide (h : HabitData) (v : ℚ) :
    (if h.id = "screen" then decide (v ≤ h.goal) else decide (v ≥ h.goal))
      = decide (achievedSpec { h with current := v }) := by
  by_cases hc : h.id = "screen"
  · rw [if_pos hc]; exact decide_eq_decide.mpr (by simp [achievedSpec, hc])
  · rw [if_neg hc]; exact decide_eq_decide.mpr (by simp [achievedSpec, hc])

/-- The was-already-achieved test of `handleHabitChange` is the achievement
predicate at the current record. -/
lemma wasAchieved_eq_decide (h : HabitData) :
    (if h.id = "screen" then decide (h.current ≤ h.goal) else decide (h.current ≥ h.goal))
      = decide (achievedSpec h) := by
  by_cases hc : h.id = "screen"
  · rw [if_pos hc]; exact decide_eq_decide.mpr (by simp [achievedSpec, hc])
  · rw [if_neg hc]; exact decide_eq_decide.mpr (by simp [achievedSpec, hc])

/-- The goal-achieved notification text begins with the character of its
leading byte sequence. -/
lemma achievedNotificationText_head (nm : String) :
    (achievedNotificationText nm).data.head? = some 'ü' := by
  rw [achievedNotificationText, String.data_append, String.data_append]
  rfl

/-- A string whose first character is not the leading character of the
goal-achieved notification cannot equal it. -/
lemma ne_achievedText_of_head (m : String) (hm : m.data.head? ≠ some 'ü')
    (nm : String) : m ≠ achievedNotificationText nm := fun hEq =>
  hm (by rw [hEq, achievedNotificationText_head])

end HabitTracker

namespace HabitTracker

/-- **C2**: after `handleHabitChange(id, v)`, at every position of the
habit list: a habit whose id matches has `current = v`, its series keeps
all earlier entries (`dropLast` unchanged) and its last entry carries the
unchanged day label with value `v`; a habit whose id differs is unchanged.
The list length is preserved. -/
theorem habit_value_update_effect (s : AppState) (id : String) (v : ℚ)
    (i : ℕ) (h : HabitData) (hh : s.habits[i]? = some h) :
    (handleHabitChange s id v).1.habits.length = s.habits.length ∧
    ∃ h', (handleHabitChange s id v).1.habits[i]? = some h' ∧
      (h.id ≠ id → h' = h) ∧
      (h.id = id →
        h'.current = v ∧
        h'.data.dropLast = h.data.dropLast ∧
        ∀ p, h.data.getLast? = some p → h'.data.getLast? = some ⟨p.day, v⟩) := by
  constructor
  · simp [handleHabitChange]
  · refine ⟨if h.id == id then updateHabitData h v else h, ?_, ?_, ?_⟩
    · simp only [handleHabitChange, List.getElem?_map, hh]
      rfl
    · intro hne
      simp [hne]
    · intro heq
      simp only [heq, beq_self_eq_true, if_pos]
      refine ⟨rfl, ?_, ?_⟩
      · exact List.dropLast_concat ..
      · intro p hp
        show (h.data.dropLast ++ [_]).getLast? = _
        rw [List.getLast?_concat]
        simp [updateHabitData, hp]

/-- Witness for C2: updating `sleep` to 9 in the initial state. -/
theorem habit_value_update_effect_witness :
    sampleState.habits[0]? = some (sleepHabit sampleDays) ∧
    ((handleHabitChange sampleState "sleep" 9).1.habits.length
        = sampleState.habits.length ∧
      ∃ h', (handleHabitChange sampleState "sleep" 9).1.habits[0]? = some h' ∧
        ((sleepHabit sampleDays).id ≠ "sleep" → h' = sleepHabit sampleDays) ∧
        ((sleepHabit sampleDays).id = "sleep" →
          h'.current = 9 ∧
          h'.data.dropLast = (sleepHabit sampleDays).data.dropLast ∧
          ∀ p, (sleepHabit sampleDays).data.getLast? = some p →
            h'.data.getLast? = some ⟨p.day, 9⟩)) :=
  ⟨rfl, habit_value_update_effect sampleState "sleep" 9 0 (sleepHabit sampleDays) rfl⟩

/-- **C3**: the daily check-in sets `lastCheckin` to now, `todayComplete`
to true, increments `streak` by exactly 1 and notifies when
`todayComplete` is false; it is a silent no-op when `todayComplete` is
already true; and a second check-in before any rollover is always a silent
no-op, so the streak changes only once. -/
theorem daily_checkin_effect (s : AppState) (now now2 : Date) :
    (s.todayComplete = false →
      (handleCheckIn now s).1.lastCheckin = some now ∧
      (handleCheckIn now s).1.todayComplete = true ∧
      (handleCheckIn now s).1.streak = s.streak + 1 ∧
      (handleCheckIn now s).2 = some "Daily check-in complete! Streak increased.") ∧
    (s.todayComplete = true → handleCheckIn now s = (s, none)) ∧
    handleCheckIn now2 (handleCheckIn now s).1 = ((handleCheckIn now s).1, none) := by
  refine ⟨?_, ?_, ?_⟩
  · intro hf; simp [handleCheckIn, hf]
  · intro ht; simp [handleCheckIn, ht]
  · by_cases hc : s.todayComplete <;> simp [handleCheckIn, hc]

/-- Witness for C3: checking in from the initial state (not yet complete)
increments the streak, and a second check-in is a no-op. -/
theorem daily_checkin_effect_witness :
    sampleState.todayComplete = false ∧
    (handleCheckIn sampleNow sampleState).1.streak = sampleState.streak + 1 ∧
    handleCheckIn sampleNow (handleCheckIn sampleNow sampleState).1
      = ((handleCheckIn sampleNow sampleState).1, none) :=
  ⟨rfl, ((daily_checkin_effect sampleState sampleNow sampleNow).1 rfl).2.2.1,
    (daily_checkin_effect sampleState sampleNow sampleNow).2.2⟩

/-- **C4**: when the calendar date components of now and `lastCheckin`
differ, the rollover check clears `todayComplete`; when moreover the
day-of-month gap exceeds one within the same month and year, or the month
or year differs, it resets `streak` to 0 and emits the streak-reset
notification — in particular a check-in two days earlier in the same month
yields `streak = 0`. -/
theorem day_rollover_effect (s : AppState) (now last : Date)
    (hl : s.lastCheckin = some last)
    (hdiff : now.day ≠ last.day ∨ now.month ≠ last.month ∨ now.year ≠ last.year) :
    (checkNewDay now s).1.todayComplete = false ∧
    ((now.month = last.month ∧ now.year = last.year ∧ now.day - last.day > 1) ∨
        now.month ≠ last.month ∨ now.year ≠ last.year →
      (checkNewDay now s).1.streak = 0 ∧
      (checkNewDay now s).2 = some "You missed a day! Streak reset.") ∧
    (now.month = last.month → now.year = last.year → now.day = last.day + 2 →
      (checkNewDay now s).1.streak = 0) := by
  have hmain : (now.month = last.month ∧ now.year = last.year ∧ now.day - last.day > 1) ∨
      now.month ≠ last.month ∨ now.year ≠ last.year →
      (checkNewDay now s).1.streak = 0 ∧
      (checkNewDay now s).2 = some "You missed a day! Streak reset." := by
    intro hcond
    simp only [checkNewDay, hl]
    split
    · split
      · exact ⟨rfl, rfl⟩
      · next hm =>
          exfalso
          simp only [Bool.or_eq_true, bne_iff_ne, decide_eq_true_eq, not_or] at hm
          obtain ⟨⟨hd1, hm1⟩, hy1⟩ := hm
          rcases hcond with ⟨_, _, hgt⟩ | hne | hne
          · exact hd1 hgt
          · exact hm1 hne
          · exact hy1 hne
    · next hn =>
        exfalso
        apply hn
        simp only [Bool.or_eq_true, bne_iff_ne]
        rcases hcond with ⟨hm1, hy1, hgt⟩ | hne | hne
        · exact Or.inl (Or.inl (by omega))
        · exact Or.inl (Or.inr hne)
        · exact Or.inr hne
  refine ⟨?_, hmain, ?_⟩
  · simp only [checkNewDay, hl]
    split
    · split
      · rfl
      · rfl
    · next hn =>
        exfalso
        apply hn
        simp only [Bool.or_eq_true, bne_iff_ne]
        rcases hdiff with hne | hne | hne
        · exact Or.inl (Or.inl hne)
        · exact Or.inl (Or.inr hne)
        · exact Or.inr hne
  · intro hm hy hd
    exact (hmain (Or.inl ⟨hm, hy, by omega⟩)).1

/-- The initial state with a last check-in two calendar days in the past. -/
def rolloverState : AppState :=
  { sampleState with lastCheckin := some ⟨2026, 9, 9⟩ }

/-- Witness for C4: a last check-in on day 9 observed on day 11 of the
same month clears `todayComplete` and zeroes the streak. -/
theorem day_rollover_effect_witness :
    rolloverState.lastCheckin = some ⟨2026, 9, 9⟩ ∧
    sampleNow.day ≠ (9 : ℤ) ∧
    (checkNewDay sampleNow rolloverState).1.todayComplete = false ∧
    (checkNewDay sampleNow rolloverState).1.streak = 0 := by
  have hth := day_rollover_effect rolloverState sampleNow ⟨2026, 9, 9⟩ rfl
    (Or.inl (by decide))
  exact ⟨rfl, by decide, hth.1, hth.2.2 rfl rfl (by decide)⟩

/-- **C5**: after the missed-habit derivation, the reminder list is exactly
one message (phrased by `reminderMessage`: "limit" for screen, "complete"
otherwise) per habit failing the direction-specific achievement test, and
it is empty exactly when every habit achieves its goal. -/
theorem missed_habit_reminders (s : AppState) :
    (checkMissedHabits s).reminders
      = (s.habits.filter fun h => !decide (achievedSpec h)).map reminderMessage ∧
    ((checkMissedHabits s).reminders = [] ↔ ∀ h ∈ s.habits, achievedSpec h) := by
  have hfilter : s.habits.filter missedHabit
      = s.habits.filter fun h => !decide (achievedSpec h) :=
    List.filter_congr fun h _ => missedHabit_eq h
  have hrem : (checkMissedHabits s).reminders
      = (s.habits.filter missedHabit).map reminderMessage := by
    simp only [checkMissedHabits]
    split
    · rfl
    · next hlen =>
        have hnil : s.habits.filter missedHabit = [] := by
          cases hfl : s.habits.filter missedHabit with
          | nil => rfl
          | cons a l => rw [hfl] at hlen; simp at hlen
        simp [hnil]
  constructor
  · rw [hrem, hfilter]
  · rw [hrem, hfilter]
    simp [List.map_eq_nil_iff, List.filter_eq_nil_iff]

/-- **C6**: `handleHabitChange(id, v)` emits the goal-achieved
notification (for the found habit) exactly when the direction-specific
goal was not met at the old `current` and is met at `v`; it emits nothing
otherwise. -/
theorem goal_achieved_notification_iff (s : AppState) (id : String) (v : ℚ)
    (h : HabitData)
    (hfind : s.habits.find? (fun x => x.id == id) = some h) :
    ((handleHabitChange s id v).2 = some (achievedNotificationText h.name) ↔
      ¬achievedSpec h ∧ achievedSpec { h with current := v }) ∧
    ((handleHabitChange s id v).2 = none ↔
      ¬(¬achievedSpec h ∧ achievedSpec { h with current := v })) := by
  have h2 : (handleHabitChange s id v).2 = handleHabitChangeNotification s id v := rfl
  rw [h2]
  unfold handleHabitChangeNotification
  rw [hfind]
  simp only [goalMet_eq_decide, wasAchieved_eq_decide]
  by_cases hold : achievedSpec h <;>
    by_cases hnew : achievedSpec { h with current := v } <;>
      simp [hold, hnew]

/-- Witness for C6: raising `sleep` (goal 8) from 7 to 9 flips achievement
from false to true and fires the notification. -/
theorem goal_achieved_notification_iff_witness :
    sampleState.habits.find? (fun x => x.id == "sleep")
      = some (sleepHabit sampleDays) ∧
    ¬achievedSpec (sleepHabit sampleDays) ∧
    achievedSpec { sleepHabit sampleDays with current := 9 } ∧
    (handleHabitChange sampleState "sleep" 9).2
      = some (achievedNotificationText "Sleep") := by
  have hth := goal_achieved_notification_iff sampleState "sleep" 9
    (sleepHabit sampleDays) rfl
  exact ⟨rfl, by decide, by decide, hth.1.mpr ⟨by decide, by decide⟩⟩

/-- **C7**: the aggregate percentage is `round(100 × completed / total)`
with `completed` counting the habits meeting their direction-specific
goal, and it does not decrease when one habit flips from not-achieved to
achieved while every other habit is held fixed. -/
theorem overall_percentage (habits l₁ l₂ : List HabitData) (h h' : HabitData)
    (hna : ¬achievedSpec h) (ha : achievedSpec h') :
    completionPercentage habits
      = round ((100 : ℚ) * completedCount habits / habits.length) ∧
    completedCount habits = habits.countP (fun x => decide (achievedSpec x)) ∧
    completionPercentage (l₁ ++ h :: l₂) ≤ completionPercentage (l₁ ++ h' :: l₂) := by
  refine ⟨?_, ?_, ?_⟩
  · unfold completionPercentage
    exact congrArg round (by ring)
  · rw [completedCount, List.countP_eq_length_filter]
    congr 1
    exact List.filter_congr fun x _ => overallProgress_completed_eq x
  · have hcc : completedCount (l₁ ++ h' :: l₂) = completedCount (l₁ ++ h :: l₂) + 1 := by
      unfold completedCount
      simp only [List.filter_append, List.filter_cons, overallProgress_completed_eq,
        List.length_append]
      simp [hna, ha]
      omega
    have hlen : (l₁ ++ h' :: l₂).length = (l₁ ++ h :: l₂).length := by simp
    unfold completionPercentage
    rw [hcc, hlen, round_eq, round_eq]
    apply Int.floor_le_floor
    have hn : (0 : ℚ) < (l₁ ++ h :: l₂).length := by
      have : 0 < (l₁ ++ h :: l₂).length := by simp
      exact_mod_cast this
    have hmono : ((completedCount (l₁ ++ h :: l₂) : ℚ)) / (l₁ ++ h :: l₂).length * 100
        ≤ ((completedCount (l₁ ++ h :: l₂) + 1 : ℕ) : ℚ) / (l₁ ++ h :: l₂).length * 100 := by
      gcongr
      linarith
    linarith

/-- Witness for C7: `exercise` (25 of 30) is not achieved, `coffee` (3 of
a 2-cup goal) is; a one-habit list flipping between them cannot lower the
percentage. -/
theorem overall_percentage_witness :
    ¬achievedSpec (exerciseHabit sampleDays) ∧
    achievedSpec (coffeeHabit sampleDays) ∧
    completionPercentage [exerciseHabit sampleDays]
      ≤ completionPercentage [coffeeHabit sampleDays] := by
  have hth := overall_percentage sampleState.habits [] []
    (exerciseHabit sampleDays) (coffeeHabit sampleDays) (by decide) (by decide)
  exact ⟨by decide, by decide, hth.2.2⟩

/-- **C8**: `streak` is zeroed only on the missed-day branch of the
rollover check: a habit value update, a goal update and the reminder
recomputation leave it untouched, check-in never decreases it, and the
rollover either leaves it unchanged or zeroes it while emitting the
streak-reset notification. -/
theorem streak_reset_only_rollover (s : AppState) (id : String) (v g : ℚ)
    (now : Date) :
    (handleHabitChange s id v).1.streak = s.streak ∧
    (updateHabitGoal s id g).1.streak = s.streak ∧
    s.streak ≤ (handleCheckIn now s).1.streak ∧
    (checkMissedHabits s).streak = s.streak ∧
    ((checkNewDay now s).1.streak = s.streak ∨
      ((checkNewDay now s).1.streak = 0 ∧
        (checkNewDay now s).2 = some "You missed a day! Streak reset.")) := by
  refine ⟨rfl, rfl, ?_, ?_, ?_⟩
  · simp only [handleCheckIn]
    split
    · exact Nat.le_succ _
    · exact le_refl _
  · simp only [checkMissedHabits]
    split <;> rfl
  · simp only [checkNewDay]
    split
    · exact Or.inl rfl
    · split
      · split
        · exact Or.inr ⟨rfl, rfl⟩
        · exact Or.inl rfl
      · exact Or.inl rfl

/-- Counterexample to C9 as stated: a goal update for an id outside the
habit set still emits a notification (the name interpolates as
`undefined`), so the operation is not silent. -/
theorem unknown_id_goal_update_notifies :
    (updateHabitGoal sampleState "stale" 5).2 = some "Goal updated for undefined" := rfl

/-- **C9 (amended)**: for an id outside the habit set, the habit value
update is a silent no-op (state unchanged, no notification), and the goal
update leaves the state unchanged but still emits the goal-updated
notification with the name rendered as `undefined`. -/
theorem unknown_id_update_behaviour (s : AppState) (id : String) (v g : ℚ)
    (hid : ∀ h ∈ s.habits, h.id ≠ id) :
    (handleHabitChange s id v).1 = s ∧
    (handleHabitChange s id v).2 = none ∧
    (updateHabitGoal s id g).1 = s ∧
    (updateHabitGoal s id g).2 = some "Goal updated for undefined" := by
  have hfind : s.habits.find? (fun h => h.id == id) = none :=
    List.find?_eq_none.mpr fun x hx => by simp [hid x hx]
  have hmap : ∀ f : HabitData → HabitData,
      (s.habits.map fun habit => if habit.id == id then f habit else habit) = s.habits := by
    intro f
    conv_rhs => rw [← List.map_id s.habits]
    exact List.map_congr_left fun x hx => by simp [hid x hx]
  refine ⟨?_, ?_, ?_, ?_⟩
  · show ({ s with habits := _ } : AppState) = s
    rw [hmap]
  · show handleHabitChangeNotification s id v = none
    unfold handleHabitChangeNotification
    rw [hfind]
  · show ({ s with habits := _ } : AppState) = s
    rw [hmap]
  · show some ("Goal updated for " ++
        (((s.habits.find? (fun h => h.id == id)).map HabitData.name).getD "undefined")) = _
    rw [hfind]
    rfl

/-- Witness for C9 (amended): the id `stale` is outside the initial habit
set; the value update is silent, the goal update notifies with
`undefined`. -/
theorem unknown_id_update_behaviour_witness :
    (∀ h ∈ sampleState.habits, h.id ≠ "stale") ∧
    (handleHabitChange sampleState "stale" 9).1 = sampleState ∧
    (handleHabitChange sampleState "stale" 9).2 = none ∧
    (updateHabitGoal sampleState "stale" 5).1 = sampleState ∧
    (updateHabitGoal sampleState "stale" 5).2 = some "Goal updated for undefined" := by
  have hth := unknown_id_update_behaviour sampleState "stale" 9 5 (by decide)
  exact ⟨by decide, hth.1, hth.2.1, hth.2.2.1, hth.2.2.2⟩

/-- **C10**: a goal update always emits the goal-updated notification and
never the goal-achieved one, whatever the new goal does to achievement;
neither does check-in nor the rollover check — the goal-achieved text can
only come from the habit value update path. -/
theorem goal_update_never_achieves (s : AppState) (id : String) (g : ℚ)
    (now : Date) :
    (∃ nm, (updateHabitGoal s id g).2 = some ("Goal updated for " ++ nm)) ∧
    (∀ nm, (updateHabitGoal s id g).2 ≠ some (achievedNotificationText nm)) ∧
    (∀ nm, (handleCheckIn now s).2 ≠ some (achievedNotificationText nm)) ∧
    (∀ nm, (checkNewDay now s).2 ≠ some (achievedNotificationText nm)) := by
  have hupd : (updateHabitGoal s id g).2 = some ("Goal updated for " ++
      (((s.habits.find? (fun h => h.id == id)).map HabitData.name).getD "undefined")) := rfl
  refine ⟨⟨_, hupd⟩, ?_, ?_, ?_⟩
  · intro nm heq
    rw [hupd] at heq
    have h1 := Option.some.inj heq
    exact ne_achievedText_of_head _ (by rw [String.data_append]; simp) nm h1
  · intro nm
    simp only [handleCheckIn]
    split
    · intro heq
      have h1 := Option.some.inj heq
      exact ne_achievedText_of_head _ (by simp) nm h1
    · simp
  · intro nm
    simp only [checkNewDay]
    split
    · simp
    · split
      · split
        · intro heq
          have h1 := Option.some.inj heq
          exact ne_achievedText_of_head _ (by simp) nm h1
        · simp
      · simp

end HabitTracker
